import Mathlib

set_option maxHeartbeats 1000000

/-! Shallow embedding of the JWT authentication subsystem of the
vital-agent-resource-rest repository: `auth/jwt_utils.py`,
`auth/dependencies.py`, `auth/middleware.py` and
`data_models/auth_models.py`.  Python dicts holding JSON claim values are
modelled as association lists over `JValue`; Python exceptions become
`Except` error values; the filesystem, the network (JWKS fetch) and the
JWK-to-PEM conversion are abstracted into an `Env` record of functions. -/

/-- JSON values: the universe of JWT claim values (the Python objects held
in a decoded payload dict). -/
inductive JValue where
  | null
  | bool (b : Bool)
  | num (n : Int)
  | str (s : String)
  | list (xs : List JValue)
  | obj (fields : List (String × JValue))

/-- Python truthiness (`bool(v)`) of a JSON value: `None`, `False`, `0`,
empty string, empty list and empty dict are falsy. -/
def JValue.truthy : JValue → Bool
  | .null => false
  | .bool b => b
  | .num n => n != 0
  | .str s => s != ""
  | .list xs => !xs.isEmpty
  | .obj fs => !fs.isEmpty

/-- Python `isinstance(v, list)`. -/
def JValue.isList : JValue → Bool
  | .list _ => true
  | _ => false

/-- Decoded JWT payload: the Python dict mapping claim names to values. -/
abbrev Payload := List (String × JValue)

/-- Python `d.get(k)` on a payload dict: `none` models the absent key
(Python `None` default). -/
def pyGet (p : Payload) (k : String) : Option JValue :=
  (p.find? (fun kv => kv.1 == k)).map (fun kv => kv.2)

/-- Python truthiness of an optional string (`if not s:` on a value that is
either `None` or a `str`). -/
def truthyOptS : Option String → Bool
  | none => false
  | some s => s != ""

/-- Python truthiness of an optional JSON value (`if not v:` where the dict
lookup may have returned `None`). -/
def truthyOptJ : Option JValue → Bool
  | none => false
  | some v => v.truthy

/-- Python `s.startswith(p)`, computed over character lists so that the
kernel can evaluate it. -/
def pyStartsWith (s p : String) : Bool :=
  p.toList.isPrefixOf s.toList

def commaSpace : String := ", "

/-- Python `repr` of a list of strings, as interpolated by an f-string:
`['email']`.  Apostrophes are written with an escape. -/
def pyListRepr (xs : List String) : String :=
  "[" ++ String.intercalate commaSpace (xs.map (fun s => "\x27" ++ s ++ "\x27")) ++ "]"

def kSub : String := "sub"
def kExp : String := "exp"
def kIat : String := "iat"
def kNbf : String := "nbf"
def kIss : String := "iss"
def kAud : String := "aud"
def kEmail : String := "email"
def kRoles : String := "roles"
def kPerms : String := "perms"
def kPermissions : String := "permissions"
def kUserId : String := "user_id"
def kUid : String := "uid"
def kDevMode : String := "dev_mode"

def defaultAlg : String := "RS256"
def prefHS : String := "HS"
def prefRS : String := "RS"
def ktyRSA : String := "RSA"

/-- Default of `jwt_config.get('required_claims', ['sub', 'exp', 'iat'])`. -/
def defaultRequiredClaims : List String := [kSub, kExp, kIat]

/-- The JWT configuration dict built by `get_jwt_config` in
`dependencies.py`.  Every field is optional, mirroring `dict.get`
returning `None` for absent keys. -/
structure JWTConfig where
  enabled : Option Bool := none
  algorithm : Option String := none
  secret_key : Option String := none
  public_key_path : Option String := none
  jwks_url : Option String := none
  required_claims : Option (List String) := none
  issuer : Option String := none
  audience : Option String := none
  enforcement_mode : Option String := none

/-- One key object of a fetched JWKS document (`{"kid": ..., "kty": ...,
...}`); only the fields the source inspects are modelled. -/
structure Jwk where
  kid : Option String := none
  kty : Option String := none
  keyData : String := ""

/-- A fetched JWKS document; `keys` models `jwks_data.get('keys', [])`
(a document without a `keys` member is modelled by the empty list). -/
structure Jwks where
  keys : List Jwk := []

/-- The ambient effect environment: filesystem, HTTP JWKS fetch
(`requests.get`, where `.error cause` models any `RequestException`,
non-2xx status or JSON parse failure, carrying `str(e)`), and
`RSAAlgorithm.from_jwk` conversion. -/
structure Env where
  fileExists : String → Bool
  fileRead : String → String
  jwksFetch : String → Except String Jwks
  fromJwk : Jwk → String

/-- A syntactically well-formed JWT: its unverified header fields, its
decoded payload, and the algorithm and key with which its signature was
actually produced (so that signature verification against a key `k` and
allowed algorithm list succeeds exactly when `signedKey = k` and
`signedAlg` is the header algorithm). -/
structure JWTToken where
  headerAlg : String
  headerKid : Option String := none
  payload : Payload := []
  signedAlg : String := ""
  signedKey : String := ""

/-- A token string as received: whether it has a `Bearer ` prefix, whether
it is the empty string, and its parse as a JWT once any prefix is removed
(`none` models a malformed token). -/
structure TokenString where
  bearerPrefixed : Bool := false
  empty : Bool := false
  body : Option JWTToken := none

/-- Lines 110-112 of `jwt_utils.py`: strip a leading `Bearer ` prefix if
present, otherwise leave the string unchanged. -/
def stripBearer (ts : TokenString) : TokenString :=
  if ts.bearerPrefixed then { ts with bearerPrefixed := false } else ts

/-- Parsing a token string as a JWT (used by `jwt.get_unverified_header`
and `jwt.decode`): a string still carrying a `Bearer ` prefix, or the
empty string, is not a well-formed JWT. -/
def TokenString.parse (ts : TokenString) : Option JWTToken :=
  if ts.bearerPrefixed || ts.empty then none else ts.body

/-- Exceptions that can be raised inside the `try` block of
`validate_jwt_token`, distinguished exactly as its `except` clauses
distinguish them: PyJWT `ExpiredSignatureError`, any other PyJWT
`InvalidTokenError`, the repository's own `JWTValidationError`, and the
repository's own `JWTInvalidClaimsError`. -/
inductive PyExc where
  | pyjwtExpired (msg : String)
  | pyjwtInvalid (msg : String)
  | appValidation (msg : String)
  | appInvalidClaims (msg : String)

/-- The repository's JWT error taxonomy (`jwt_utils.py` lines 12-22):
`JWTValidationError` and its subclasses `JWTExpiredError` and
`JWTInvalidClaimsError`; `internal` stands for any other uncaught Python
exception reaching the dependency's blanket `except Exception`. -/
inductive JWTErr where
  | validation (msg : String)
  | expired (msg : String)
  | invalidClaims (msg : String)
  | internal (msg : String)

def expiredMsg : String := "JWT token has expired"
def invalidTokenPre : String := "Invalid JWT token: "
def validationFailedPre : String := "JWT validation failed: "
def missingClaimsPre : String := "Missing required claims: "
def secretRequiredMsg : String := "secret_key is required for HMAC algorithms"
def missingKidMsg : String := "Token header missing \x27kid\x27 field required for JWKS"
def tokenRequiredMsg : String := "Token required to extract kid for JWKS lookup"
def fetchFailPre : String := "Failed to fetch JWKS: "
def jwksWrapPre : String := "JWKS key retrieval failed: "
def kidNotFoundPre : String := "Key with kid \x27"
def kidNotFoundSuf : String := "\x27 not found in JWKS"
def eitherRequiredMsg : String := "Either jwks_url or public_key_path is required for RSA algorithms"
def pkNotFoundPre : String := "Public key file not found: "

/-- Message of `JWTValidationError` raised for a key whose kid is absent
from the JWKS (`jwt_utils.py` line 48). -/
def kidNotFoundMsg (kid : String) : String :=
  kidNotFoundPre ++ kid ++ kidNotFoundSuf

/-- Embedding of `JWTUtils._fetch_jwks_keys` (`jwt_utils.py` lines 27-36):
on any `requests` failure it raises `JWTValidationError` with the cause
appended. -/
def fetch_jwks_keys (env : Env) (url : String) : Except String Jwks :=
  match env.jwksFetch url with
  | .ok j => .ok j
  | .error cause => .error (fetchFailPre ++ cause)

/-- Loop body of `JWTUtils._get_public_key_from_jwks`: iterate over the
key list; return the converted key for the first entry whose `kid`
matches and whose `kty` is RSA, otherwise keep scanning (a matching `kid`
with a non-RSA `kty` falls through to the next entry, as in the Python
loop whose inner `if` has no `else`). -/
def jwksGo (env : Env) (kid : String) : List Jwk → Except String String
  | [] => .error (kidNotFoundMsg kid)
  | k :: rest =>
    if k.kid = some kid then
      if k.kty = some ktyRSA then .ok (env.fromJwk k) else jwksGo env kid rest
    else jwksGo env kid rest

/-- Embedding of `JWTUtils._get_public_key_from_jwks` (`jwt_utils.py`
lines 38-48). -/
def get_public_key_from_jwks (jwks : Jwks) (kid : String) (env : Env) : Except String String :=
  jwksGo env kid jwks.keys

def headerDecodeMsg : String := "Invalid header string"

/-- Body of the inner `try` of the JWKS branch of
`JWTUtils._get_signing_key` (`jwt_utils.py` lines 67-74): read the
unverified header, require a truthy `kid`, fetch the JWKS and select the
key.  Errors carry `str(e)` of the exception raised inside the `try`. -/
def jwksKeyInner (ts : TokenString) (url : String) (env : Env) : Except String String :=
  match ts.parse with
  | none => .error headerDecodeMsg
  | some t =>
    match t.headerKid with
    | none => .error missingKidMsg
    | some kid =>
      if kid = "" then .error missingKidMsg
      else
        match fetch_jwks_keys env url with
        | .error m => .error m
        | .ok jwks => get_public_key_from_jwks jwks kid env

/-- Embedding of `JWTUtils._get_signing_key` (`jwt_utils.py` lines
50-90).  The error string is the message of the raised
`JWTValidationError`. -/
def get_signing_key (jwt_config : JWTConfig) (token : Option TokenString) (env : Env) :
    Except String String :=
  let algorithm := jwt_config.algorithm.getD defaultAlg
  if pyStartsWith algorithm prefHS then
    match jwt_config.secret_key with
    | none => .error secretRequiredMsg
    | some s => if s = "" then .error secretRequiredMsg else .ok s
  else
    if truthyOptS jwt_config.jwks_url then
      match token with
      | none => .error tokenRequiredMsg
      | some ts =>
        match jwksKeyInner ts (jwt_config.jwks_url.getD "") env with
        | .ok k => .ok k
        | .error m => .error (jwksWrapPre ++ m)
    else
      if truthyOptS jwt_config.public_key_path then
        let path := jwt_config.public_key_path.getD ""
        if env.fileExists path then .ok (env.fileRead path)
        else .error (pkNotFoundPre ++ path)
      else .error eitherRequiredMsg

def notEnoughSegmentsMsg : String := "Not enough segments"
def algNotAllowedMsg : String := "The specified alg value is not allowed"
def sigFailedMsg : String := "Signature verification failed"
def immatureIatMsg : String := "The token is not yet valid (iat)"
def invalidIatMsg : String := "iat must be an integer"
def immatureNbfMsg : String := "The token is not yet valid (nbf)"
def invalidNbfMsg : String := "nbf must be an integer"
def expiredSigMsg : String := "Signature has expired"
def invalidExpMsg : String := "Expiration Time claim (exp) must be an integer."
def missingIssMsg : String := "Token is missing the \x22iss\x22 claim"
def invalidIssMsg : String := "Invalid issuer"
def missingAudMsg : String := "Token is missing the \x22aud\x22 claim"
def invalidAudMsg : String := "Invalid audience"

/-- PyJWT `_validate_iat` with leeway 0 (the repository passes
`verify_iat: True` and no leeway): a present `iat` must be an integer and
must not lie in the future; a future `iat` raises
`ImmatureSignatureError`, a non-integer raises `InvalidIssuedAtError`
(both `InvalidTokenError` subclasses). -/
def validateIat (p : Payload) (now : Int) : Except PyExc Unit :=
  match pyGet p kIat with
  | none => .ok ()
  | some (.num i) => if now < i then .error (.pyjwtInvalid immatureIatMsg) else .ok ()
  | some _ => .error (.pyjwtInvalid invalidIatMsg)

/-- PyJWT `_validate_nbf` with leeway 0 (`verify_nbf` is on by default and
the repository does not disable it). -/
def validateNbf (p : Payload) (now : Int) : Except PyExc Unit :=
  match pyGet p kNbf with
  | none => .ok ()
  | some (.num n) => if now < n then .error (.pyjwtInvalid immatureNbfMsg) else .ok ()
  | some _ => .error (.pyjwtInvalid invalidNbfMsg)

/-- PyJWT `_validate_exp` with leeway 0: a present `exp` must be an
integer and must be strictly in the future (`exp <= now` raises
`ExpiredSignatureError`). -/
def validateExp (p : Payload) (now : Int) : Except PyExc Unit :=
  match pyGet p kExp with
  | none => .ok ()
  | some (.num e) => if e ≤ now then .error (.pyjwtExpired expiredSigMsg) else .ok ()
  | some _ => .error (.pyjwtInvalid invalidExpMsg)

/-- PyJWT `_validate_iss`: a no-op when no expected issuer was passed to
`jwt.decode`; otherwise the `iss` claim must be present and equal (as a
string) to the expected issuer. -/
def validateIss (p : Payload) (issuer : Option String) : Except PyExc Unit :=
  match issuer with
  | none => .ok ()
  | some iss =>
    match pyGet p kIss with
    | none => .error (.pyjwtInvalid missingIssMsg)
    | some (.str s) => if s = iss then .ok () else .error (.pyjwtInvalid invalidIssMsg)
    | some _ => .error (.pyjwtInvalid invalidIssMsg)

/-- One audience candidate of a string-or-list `aud` claim matches the
expected audience string. -/
def audMatches (a : String) : JValue → Bool
  | .str s => s == a
  | _ => false

/-- PyJWT `_validate_aud` with a single expected audience string and
`strict_aud` off: a no-op when no audience was passed; otherwise the
`aud` claim must be present and be either a string equal to the expected
audience or a list of strings containing it. -/
def validateAud (p : Payload) (audience : Option String) : Except PyExc Unit :=
  match audience with
  | none => .ok ()
  | some a =>
    match pyGet p kAud with
    | none => .error (.pyjwtInvalid missingAudMsg)
    | some (.str s) => if s = a then .ok () else .error (.pyjwtInvalid invalidAudMsg)
    | some (.list l) =>
      if l.all (fun x => x.isList = false && (match x with | .str _ => true | _ => false)) = false then
        .error (.pyjwtInvalid invalidAudMsg)
      else if l.any (audMatches a) then .ok ()
      else .error (.pyjwtInvalid invalidAudMsg)
    | some _ => .error (.pyjwtInvalid invalidAudMsg)

/-- Model of PyJWT `jwt.decode(token, key, algorithms, options, issuer?,
audience?)` as called at `jwt_utils.py` line 137, following PyJWT's
documented order: parse the token, check the header algorithm against the
allowed list, verify the signature against `key` and the header
algorithm, then validate registered claims (`iat`, `nbf`, `exp`, `iss`,
`aud`) in PyJWT's order.  Signature verification precedes all claim
validation. -/
def jwtDecode (ts : TokenString) (key : String) (algorithms : List String)
    (issuer audience : Option String) (now : Int) : Except PyExc Payload :=
  match ts.parse with
  | none => .error (.pyjwtInvalid notEnoughSegmentsMsg)
  | some t =>
    if algorithms.contains t.headerAlg = false then
      .error (.pyjwtInvalid algNotAllowedMsg)
    else if t.signedAlg = t.headerAlg ∧ t.signedKey = key then
      match validateIat t.payload now with
      | .error e => .error e
      | .ok _ =>
        match validateNbf t.payload now with
        | .error e => .error e
        | .ok _ =>
          match validateExp t.payload now with
          | .error e => .error e
          | .ok _ =>
            match validateIss t.payload issuer with
            | .error e => .error e
            | .ok _ =>
              match validateAud t.payload audience with
              | .error e => .error e
              | .ok _ => .ok t.payload
    else .error (.pyjwtInvalid sigFailedMsg)

/-- Body of the `try` block of `JWTUtils.validate_jwt_token`
(`jwt_utils.py` lines 109-148): strip the prefix, resolve the signing
key (a raised `JWTValidationError` becomes an `appValidation`
exception), decode with the configured algorithm only, passing issuer
and audience exactly when they are truthy, then check the configured
required claims, raising `JWTInvalidClaimsError` when some are
missing. -/
def tryValidate (token : TokenString) (jwt_config : JWTConfig) (env : Env) (now : Int) :
    Except PyExc Payload :=
  let tok := stripBearer token
  let algorithm := jwt_config.algorithm.getD defaultAlg
  match get_signing_key jwt_config (some tok) env with
  | .error m => .error (.appValidation m)
  | .ok signing_key =>
    let issuer := if truthyOptS jwt_config.issuer then jwt_config.issuer else none
    let audience := if truthyOptS jwt_config.audience then jwt_config.audience else none
    match jwtDecode tok signing_key [algorithm] issuer audience now with
    | .error e => .error e
    | .ok payload =>
      let required := jwt_config.required_claims.getD defaultRequiredClaims
      let missing := required.filter (fun c => (pyGet payload c).isNone)
      if missing.isEmpty then .ok payload
      else .error (.appInvalidClaims (missingClaimsPre ++ pyListRepr missing))

/-- The `except` clauses of `JWTUtils.validate_jwt_token` (`jwt_utils.py`
lines 150-158), in Python's dispatch order: PyJWT `ExpiredSignatureError`
becomes `JWTExpiredError`; any other PyJWT `InvalidTokenError` becomes
`JWTValidationError("Invalid JWT token: ...")`; every other exception —
including the `JWTInvalidClaimsError` raised for missing required claims
inside the same `try` block, which is not a PyJWT exception — falls to
the blanket `except Exception` and is re-raised as
`JWTValidationError("JWT validation failed: ...")`. -/
def catchValidate : PyExc → JWTErr
  | .pyjwtExpired _ => .expired expiredMsg
  | .pyjwtInvalid m => .validation (invalidTokenPre ++ m)
  | .appValidation m => .validation (validationFailedPre ++ m)
  | .appInvalidClaims m => .validation (validationFailedPre ++ m)

/-- Embedding of `JWTUtils.validate_jwt_token` (`jwt_utils.py` lines
92-158): the `try` body with its `except` clauses applied to whatever
escapes it. -/
def validate_jwt_token (token : TokenString) (jwt_config : JWTConfig) (env : Env) (now : Int) :
    Except JWTErr Payload :=
  match tryValidate token jwt_config env now with
  | .ok p => .ok p
  | .error e => .error (catchValidate e)

/-- Embedding of `JWTUtils.extract_user_permissions` (`jwt_utils.py`
lines 160-178): try `permissions`, then `perms`, then `roles`, each with
default `[]`, moving on only when the current value is falsy; finally
return it when it is a list, else the empty list. -/
def extract_user_permissions (jwt_payload : Payload) : List JValue :=
  let permissions := (pyGet jwt_payload kPermissions).getD (JValue.list [])
  let permissions :=
    if permissions.truthy then permissions else (pyGet jwt_payload kPerms).getD (JValue.list [])
  let permissions :=
    if permissions.truthy then permissions else (pyGet jwt_payload kRoles).getD (JValue.list [])
  match permissions with
  | .list l => l
  | _ => []

/-- Embedding of `JWTUtils.extract_user_id` (`jwt_utils.py` lines
180-198): try `sub`, then `user_id`, then `uid`, moving on when the
current value is falsy; the final value is returned even when falsy. -/
def extract_user_id (jwt_payload : Payload) : Option JValue :=
  let user_id := pyGet jwt_payload kSub
  let user_id := if truthyOptJ user_id then user_id else pyGet jwt_payload kUserId
  let user_id := if truthyOptJ user_id then user_id else pyGet jwt_payload kUid
  user_id

/-- The `AuthenticatedUser` pydantic model (`auth_models.py` lines 5-19).
Timestamps stay as Unix seconds; pydantic string coercion of non-string
claim values for `email`/`subject`/`issuer`/`audience` is not modelled
(they are kept as raw claim values, which no embedded operation
inspects). -/
structure AuthenticatedUser where
  user_id : String
  email : Option JValue := none
  permissions : List JValue := []
  roles : List JValue := []
  jwt_payload : Payload := []
  subject : Option JValue := none
  issuer : Option JValue := none
  audience : Option JValue := none
  expires_at : Option Int := none
  issued_at : Option Int := none

def userIdNotFoundMsg : String := "User ID not found in JWT payload"
def badUserIdTypeMsg : String := "user_id is not coercible to str"
def badTimestampMsg : String := "timestamp claim is not a number"

/-- Pydantic coercion of a claim value into the `user_id: str` field:
strings pass through, numbers and booleans coerce via Python `str`, and
anything else raises a (non-JWT) validation exception. -/
def pydanticStr : JValue → Except String String
  | .str s => .ok s
  | .num n => .ok (toString n)
  | .bool b => .ok (if b then "True" else "False")
  | _ => .error badUserIdTypeMsg

/-- Conversion of the `exp`/`iat` claims by `datetime.fromtimestamp` in
`create_authenticated_user_from_jwt`: absent claims give no timestamp,
numeric claims their value, and a non-numeric value raises an ordinary
`TypeError` (not a JWT error). -/
def timestampOf (p : Payload) (k : String) : Except JWTErr (Option Int) :=
  match pyGet p k with
  | none => .ok none
  | some (.num n) => .ok (some n)
  | some _ => .error (.internal badTimestampMsg)

/-- Embedding of `create_authenticated_user_from_jwt`
(`dependencies.py` lines 30-72): require a truthy user id (raising
`JWTInvalidClaimsError` otherwise — outside `validate_jwt_token`, so it
keeps its type), extract permissions, take `roles` when it is a list,
copy the standard claims, and convert the timestamps. -/
def create_authenticated_user_from_jwt (jwt_payload : Payload) :
    Except JWTErr AuthenticatedUser :=
  let user_id := extract_user_id jwt_payload
  if truthyOptJ user_id = false then .error (.invalidClaims userIdNotFoundMsg)
  else
    match pydanticStr (user_id.getD .null) with
    | .error m => .error (.internal m)
    | .ok uid =>
      let permissions := extract_user_permissions jwt_payload
      let roles :=
        match pyGet jwt_payload kRoles with
        | some (.list l) => l
        | _ => []
      match timestampOf jwt_payload kExp with
      | .error e => .error e
      | .ok expires_at =>
        match timestampOf jwt_payload kIat with
        | .error e => .error e
        | .ok issued_at =>
          .ok { user_id := uid
                email := pyGet jwt_payload kEmail
                permissions := permissions
                roles := roles
                jwt_payload := jwt_payload
                subject := pyGet jwt_payload kSub
                issuer := pyGet jwt_payload kIss
                audience := pyGet jwt_payload kAud
                expires_at := expires_at
                issued_at := issued_at }

def devUserId : String := "dev_user"
def devEmail : String := "dev@example.com"
def starPerm : String := "*"
def adminRole : String := "admin"

/-- The fixed development identity returned by the hard gate when JWT
authentication is disabled (`dependencies.py` lines 97-103). -/
def devUser : AuthenticatedUser :=
  { user_id := devUserId
    email := some (.str devEmail)
    permissions := [.str starPerm]
    roles := [.str adminRole]
    jwt_payload := [(kSub, .str devUserId), (kDevMode, .bool true)] }

/-- The `details` object of a structured authentication error body. -/
structure ErrDetails where
  error_type : String
  timestamp : String

/-- The `detail` body of a raised `HTTPException`:
`{error, message, details}`. -/
structure ErrBody where
  error : String
  message : String
  details : ErrDetails

/-- A raised `HTTPException`: status code, structured body, and whether a
`WWW-Authenticate: Bearer` response header is attached. -/
structure HTTPError where
  status : Nat
  detail : ErrBody
  wwwAuthenticate : Bool

def errAuthRequired : String := "authentication_required"
def msgTokenRequired : String := "JWT token is required"
def etMissingToken : String := "MissingToken"
def errTokenExpired : String := "token_expired"
def etExpired : String := "JWTExpiredError"
def errInvalidClaims : String := "invalid_claims"
def etInvalidClaims : String := "JWTInvalidClaimsError"
def errAuthFailed : String := "authentication_failed"
def etValidation : String := "JWTValidationError"
def errAuthError : String := "authentication_error"
def msgInternalAuth : String := "Internal authentication error"
def etInternal : String := "InternalError"

/-- The 401 `authentication_required` response raised when no bearer
token is supplied (`dependencies.py` lines 110-123). -/
def authRequiredErr (nowIso : String) : HTTPError :=
  { status := 401
    detail := { error := errAuthRequired
                message := msgTokenRequired
                details := { error_type := etMissingToken, timestamp := nowIso } }
    wwwAuthenticate := true }

/-- The `except` clauses of `get_current_user_dependency`
(`dependencies.py` lines 137-193), in Python's dispatch order:
`JWTExpiredError` to 401 `token_expired`, `JWTInvalidClaimsError` to 422
`invalid_claims` (no `WWW-Authenticate` header), any other
`JWTValidationError` to 401 `authentication_failed`, and any other
exception to 500 `authentication_error`. -/
def mapAuthErr (e : JWTErr) (nowIso : String) : HTTPError :=
  match e with
  | .expired m =>
    { status := 401
      detail := { error := errTokenExpired, message := m
                  details := { error_type := etExpired, timestamp := nowIso } }
      wwwAuthenticate := true }
  | .invalidClaims m =>
    { status := 422
      detail := { error := errInvalidClaims, message := m
                  details := { error_type := etInvalidClaims, timestamp := nowIso } }
      wwwAuthenticate := false }
  | .validation m =>
    { status := 401
      detail := { error := errAuthFailed, message := m
                  details := { error_type := etValidation, timestamp := nowIso } }
      wwwAuthenticate := true }
  | .internal _ =>
    { status := 500
      detail := { error := errAuthError, message := msgInternalAuth
                  details := { error_type := etInternal, timestamp := nowIso } }
      wwwAuthenticate := false }

/-- Embedding of `get_current_user_dependency` (`dependencies.py` lines
74-193), the hard gate: when JWT is disabled return the fixed
development identity; otherwise require non-empty bearer credentials,
validate the token, build the user, and map every failure to a
structured `HTTPException`. -/
def get_current_user_dependency (jwt_config : JWTConfig) (env : Env) (now : Int)
    (nowIso : String) (credentials : Option TokenString) :
    Except HTTPError AuthenticatedUser :=
  if (jwt_config.enabled.getD false) = false then .ok devUser
  else
    match credentials with
    | none => .error (authRequiredErr nowIso)
    | some token =>
      if token.empty then .error (authRequiredErr nowIso)
      else
        match validate_jwt_token token jwt_config env now with
        | .error e => .error (mapAuthErr e nowIso)
        | .ok jwt_payload =>
          match create_authenticated_user_from_jwt jwt_payload with
          | .error e => .error (mapAuthErr e nowIso)
          | .ok user => .ok user

/-- The raw `Authorization` header string as the middleware sees it:
whether it is empty, whether it starts with `Bearer `, and the remainder
after that prefix. -/
structure AuthHeaderString where
  isEmpty : Bool := false
  bearerPrefixed : Bool := false
  afterBearer : TokenString := {}

/-- Embedding of `JWTAuthenticationMiddleware._extract_user_info`
(`middleware.py` lines 59-89), the soft gate's identity extraction: when
JWT is disabled, or the header is missing, empty or not `Bearer `-
prefixed, or validation or user construction fails for any reason
(including unexpected exceptions), the result is the anonymous marker
`none`; only a fully successful validation yields an identity. -/
def extract_user_info (jwt_config : JWTConfig) (env : Env) (now : Int)
    (authHeader : Option AuthHeaderString) : Option AuthenticatedUser :=
  if (jwt_config.enabled.getD false) = false then none
  else
    match authHeader with
    | none => none
    | some h =>
      if h.isEmpty then none
      else if h.bearerPrefixed = false then none
      else
        match validate_jwt_token h.afterBearer jwt_config env now with
        | .error _ => none
        | .ok jwt_payload =>
          match create_authenticated_user_from_jwt jwt_payload with
          | .error _ => none
          | .ok user => some user

def anonymousUser : String := "anonymous"

/-- The user fields of the request log line written by
`JWTAuthenticationMiddleware._log_request` (`middleware.py` lines
97-98 and 106-107): the resolved user id (or `anonymous`) and the
permission count. -/
def logRequestFields (user : Option AuthenticatedUser) : String × Nat :=
  match user with
  | some u => (u.user_id, u.permissions.length)
  | none => (anonymousUser, ([] : List JValue).length)

def pkRequiredMsg : String := "public_key_path is required for RSA algorithms"
def invalidModePre : String := "Invalid enforcement_mode: "
def modeHeaderStr : String := "header"
def modePayloadStr : String := "payload"
def modeHybridStr : String := "hybrid"
def modeNoneStr : String := "none"

/-- The `enforcement_mode` membership test of `validate_jwt_config`
(`jwt_utils.py` lines 247-249). -/
def enforcementModeOk (jwt_config : JWTConfig) : Bool :=
  [modeHeaderStr, modePayloadStr, modeHybridStr, modeNoneStr].contains
    (jwt_config.enforcement_mode.getD modeHeaderStr)

/-- Embedding of `JWTUtils.validate_jwt_config` (`jwt_utils.py` lines
215-252): disabled configurations pass; enabled RS-prefixed algorithms
require a truthy `public_key_path` naming an existing file (the
`jwks_url` field is never consulted here); all other algorithms require
a truthy `secret_key`; finally `enforcement_mode` must be one of the
four known modes.  Errors are raised `ValueError` messages. -/
def validate_jwt_config (jwt_config : JWTConfig) (env : Env) : Except String Bool :=
  if (jwt_config.enabled.getD false) = false then .ok true
  else
    let algorithm := jwt_config.algorithm.getD defaultAlg
    let keyCheck : Except String Unit :=
      if pyStartsWith algorithm prefRS then
        if truthyOptS jwt_config.public_key_path = false then .error pkRequiredMsg
        else
          let path := jwt_config.public_key_path.getD ""
          if env.fileExists path = false then .error (pkNotFoundPre ++ path)
          else .ok ()
      else
        if truthyOptS jwt_config.secret_key = false then .error secretRequiredMsg
        else .ok ()
    match keyCheck with
    | .error m => .error m
    | .ok _ =>
      if enforcementModeOk jwt_config = false then
        .error (invalidModePre ++ jwt_config.enforcement_mode.getD modeHeaderStr)
      else .ok true

/-- Modelled from the spec (section 4.3): the permission-resolution rule
as the specification words it — the first non-empty **list** among the
`permissions`, `perms` and `roles` claims wins, and non-list values are
treated as empty.  This is the comparison point for the refinement claim
about `extract_user_permissions`; it is deliberately written from the
spec's words, not from the source. -/
def specListOf (p : Payload) (k : String) : List JValue :=
  match pyGet p k with
  | some (.list l) => l
  | _ => []

/-- Modelled from the spec (section 4.3): first non-empty list among
`permissions`, `perms`, `roles`. -/
def specPermissions (p : Payload) : List JValue :=
  match specListOf p kPermissions with
  | x :: xs => x :: xs
  | [] =>
    match specListOf p kPerms with
    | y :: ys => y :: ys
    | [] => specListOf p kRoles

/-- The value stored under one claim name, if any, is a list. -/
def keyIsListOrAbsent (p : Payload) (k : String) : Bool :=
  match pyGet p k with
  | some v => v.isList
  | none => true

/-- Every value actually stored under a permission-chain claim is a list;
under this condition the source's permission extraction and the spec's
wording agree. -/
def chainAllLists (p : Payload) : Bool :=
  keyIsListOrAbsent p kPermissions && keyIsListOrAbsent p kPerms &&
    keyIsListOrAbsent p kRoles

/-! Concrete fixtures used by witnesses and counterexamples. -/

def tIso : String := "2026-01-01T00:00:00"

/-- An environment with no files, failing JWKS fetches and a trivial JWK
conversion. -/
def envEmpty : Env :=
  { fileExists := fun _ => false
    fileRead := fun _ => ""
    jwksFetch := fun _ => .error ""
    fromJwk := fun _ => "" }

/-- An environment in which every file path exists. -/
def envAllFiles : Env :=
  { envEmpty with fileExists := fun _ => true }

def algHS256 : String := "HS256"
def secretStr : String := "secret"
def wrongKeyStr : String := "other"
def subU1 : String := "u1"
def algNone : String := "none"

/-! Claim C6. -/

/-- Shared fact: with authentication disabled the hard gate returns the
fixed development identity whatever the credentials. -/
lemma dependency_disabled (cfg : JWTConfig) (env : Env) (now : Int) (nowIso : String)
    (credentials : Option TokenString) (h : cfg.enabled.getD false = false) :
    get_current_user_dependency cfg env now nowIso credentials = .ok devUser := by
  unfold get_current_user_dependency
  simp [h]

/-- Shared fact: with authentication disabled the soft gate's extraction
returns the anonymous marker whatever the header. -/
lemma extract_disabled (cfg : JWTConfig) (env : Env) (now : Int)
    (authHeader : Option AuthHeaderString) (h : cfg.enabled.getD false = false) :
    extract_user_info cfg env now authHeader = none := by
  unfold extract_user_info
  simp [h]

/-- C6: for every request, when the configuration has enabled=false, the
hard gate `get_current_user_dependency` returns the fixed development
identity with user_id "dev_user", permissions ["*"], roles ["admin"],
for every value of the Authorization credentials (so without inspecting
them) and without raising any error. -/
theorem c6_disabled_returns_dev_identity (cfg : JWTConfig) (env : Env) (now : Int)
    (nowIso : String) (credentials : Option TokenString)
    (h : cfg.enabled.getD false = false) :
    get_current_user_dependency cfg env now nowIso credentials = .ok devUser ∧
    devUser.user_id = devUserId ∧
    devUser.permissions = [.str starPerm] ∧
    devUser.roles = [.str adminRole] :=
  ⟨dependency_disabled cfg env now nowIso credentials h, rfl, rfl, rfl⟩

/-- C6 witness: a default (all-absent) configuration is disabled, and a
credential-less request yields the development identity. -/
theorem c6_witness :
    get_current_user_dependency {} envEmpty 0 tIso none = .ok devUser ∧
    devUser.user_id = devUserId ∧
    devUser.permissions = [.str starPerm] ∧
    devUser.roles = [.str adminRole] :=
  c6_disabled_returns_dev_identity {} envEmpty 0 tIso none rfl

/-! Claim C7. -/

/-- C7: with authentication enabled, a request whose bearer credentials
are missing or empty is rejected by the hard gate with HTTP 401, body
error `authentication_required`, a details object carrying an error_type
and the request timestamp, and a `WWW-Authenticate: Bearer` header; the
conclusion does not depend on the effect environment, so token
validation is never consulted. -/
theorem c7_missing_credentials_401 (cfg : JWTConfig) (env : Env) (now : Int)
    (nowIso : String) (h : cfg.enabled.getD false = true) :
    get_current_user_dependency cfg env now nowIso none = .error (authRequiredErr nowIso) ∧
    (∀ t : TokenString, t.empty = true →
      get_current_user_dependency cfg env now nowIso (some t) =
        .error (authRequiredErr nowIso)) ∧
    (authRequiredErr nowIso).status = 401 ∧
    (authRequiredErr nowIso).detail.error = errAuthRequired ∧
    (authRequiredErr nowIso).detail.details.error_type = etMissingToken ∧
    (authRequiredErr nowIso).detail.details.timestamp = nowIso ∧
    (authRequiredErr nowIso).wwwAuthenticate = true := by
  refine ⟨?_, ?_, rfl, rfl, rfl, rfl, rfl⟩
  · unfold get_current_user_dependency
    simp [h]
  · intro t ht
    unfold get_current_user_dependency
    simp [h, ht]

/-- C7 witness: an enabled configuration and a request with no
Authorization credentials at all. -/
theorem c7_witness :
    get_current_user_dependency { enabled := some true } envEmpty 0 tIso none =
      .error (authRequiredErr tIso) :=
  (c7_missing_credentials_401 { enabled := some true } envEmpty 0 tIso rfl).1

/-! Claim C10. -/

/-- C10: when the configuration has enabled=false the soft gate's
extraction returns the anonymous marker, the request log line therefore
shows user "anonymous" with permission count 0, and it does not return
the fixed development identity — while the hard gate, for the same
configuration, does return that identity. -/
theorem c10_disabled_soft_gate_anonymous (cfg : JWTConfig) (env : Env) (now : Int)
    (nowIso : String) (authHeader : Option AuthHeaderString)
    (credentials : Option TokenString) (h : cfg.enabled.getD false = false) :
    extract_user_info cfg env now authHeader = none ∧
    logRequestFields (extract_user_info cfg env now authHeader) = (anonymousUser, 0) ∧
    extract_user_info cfg env now authHeader ≠ some devUser ∧
    get_current_user_dependency cfg env now nowIso credentials = .ok devUser := by
  have he := extract_disabled cfg env now authHeader h
  refine ⟨he, ?_, ?_, dependency_disabled cfg env now nowIso credentials h⟩
  · rw [he]
    rfl
  · rw [he]
    exact fun hc => Option.noConfusion hc

/-- C10 witness: a default configuration, a Bearer-prefixed header and
arbitrary credentials. -/
theorem c10_witness :
    extract_user_info {} envEmpty 0 (some { bearerPrefixed := true }) = none ∧
    logRequestFields (extract_user_info {} envEmpty 0 (some { bearerPrefixed := true })) =
      (anonymousUser, 0) ∧
    extract_user_info {} envEmpty 0 (some { bearerPrefixed := true }) ≠ some devUser ∧
    get_current_user_dependency {} envEmpty 0 tIso none = .ok devUser :=
  c10_disabled_soft_gate_anonymous {} envEmpty 0 tIso (some { bearerPrefixed := true }) none rfl

/-! Claim C8. -/

/-- Scanning a key list none of whose entries carries the requested kid
ends in the kid-not-found error. -/
lemma jwksGo_not_found (env : Env) (kid : String) :
    ∀ ks : List Jwk, (∀ k ∈ ks, k.kid ≠ some kid) →
      jwksGo env kid ks = .error (kidNotFoundMsg kid) := by
  intro ks
  induction ks with
  | nil => intro _; rfl
  | cons k rest ih =>
    intro hall
    unfold jwksGo
    rw [if_neg (hall k (List.mem_cons_self k rest))]
    exact ih fun x hx => hall x (List.mem_cons_of_mem k hx)

/-- A successful scan result comes from an entry of the list whose kid is
the requested one and whose kty is RSA. -/
lemma jwksGo_ok (env : Env) (kid : String) :
    ∀ (ks : List Jwk) (s : String), jwksGo env kid ks = .ok s →
      ∃ k ∈ ks, k.kid = some kid ∧ k.kty = some ktyRSA ∧ s = env.fromJwk k := by
  intro ks
  induction ks with
  | nil => intro s hs; exact absurd hs (by simp [jwksGo])
  | cons k rest ih =>
    intro s hs
    unfold jwksGo at hs
    by_cases hkid : k.kid = some kid
    · rw [if_pos hkid] at hs
      by_cases hkty : k.kty = some ktyRSA
      · rw [if_pos hkty] at hs
        exact ⟨k, List.mem_cons_self k rest, hkid, hkty, (Except.ok.injEq _ _).mp hs.symm⟩
      · rw [if_neg hkty] at hs
        obtain ⟨x, hx, h1, h2, h3⟩ := ih s hs
        exact ⟨x, List.mem_cons_of_mem k hx, h1, h2, h3⟩
    · rw [if_neg hkid] at hs
      obtain ⟨x, hx, h1, h2, h3⟩ := ih s hs
      exact ⟨x, List.mem_cons_of_mem k hx, h1, h2, h3⟩

/-- C8: key resolution from a fetched JWKS returns a key only for an
entry whose kid equals the token's kid (and whose kty is RSA), and when
no entry carries that kid it fails with the `JWTValidationError` whose
message names the missing kid — it never falls back to another key of
the set. -/
theorem c8_jwks_kid_resolution (jwks : Jwks) (kid : String) (env : Env) :
    ((∀ k ∈ jwks.keys, k.kid ≠ some kid) →
      get_public_key_from_jwks jwks kid env = .error (kidNotFoundMsg kid)) ∧
    (∀ s : String, get_public_key_from_jwks jwks kid env = .ok s →
      ∃ k ∈ jwks.keys, k.kid = some kid ∧ k.kty = some ktyRSA ∧ s = env.fromJwk k) :=
  ⟨fun hall => jwksGo_not_found env kid jwks.keys hall,
   fun s hs => jwksGo_ok env kid jwks.keys s hs⟩

def kidA : String := "a"
def kidB : String := "b"

/-- A JWKS whose single key has kid "a". -/
def jwksSingleA : Jwks :=
  { keys := [{ kid := some kidA, kty := some ktyRSA }] }

/-- C8 witness: resolving kid "b" against a JWKS holding only kid "a"
fails with the error naming "b". -/
theorem c8_witness :
    get_public_key_from_jwks jwksSingleA kidB envEmpty = .error (kidNotFoundMsg kidB) :=
  (c8_jwks_kid_resolution jwksSingleA kidB envEmpty).1 (by decide)

/-! Claim C9. -/

/-- C9: the soft gate's identity extraction is total — for every
configuration, environment, time and Authorization header it returns
either the anonymous marker or an identity, and an identity arises only
from a fully successful validation and user construction; every failure
of any kind (disabled auth, missing/empty/non-Bearer header, or any
validation, claims, key-resolution or unexpected error, which are
exactly the error values of `validate_jwt_token` and
`create_authenticated_user_from_jwt`) yields the anonymous marker
instead of propagating. -/
theorem c9_soft_gate_total (cfg : JWTConfig) (env : Env) (now : Int)
    (authHeader : Option AuthHeaderString) :
    extract_user_info cfg env now authHeader = none ∨
    ∃ (h : AuthHeaderString) (p : Payload) (u : AuthenticatedUser),
      authHeader = some h ∧ h.isEmpty = false ∧ h.bearerPrefixed = true ∧
      cfg.enabled.getD false = true ∧
      validate_jwt_token h.afterBearer cfg env now = .ok p ∧
      create_authenticated_user_from_jwt p = .ok u ∧
      extract_user_info cfg env now authHeader = some u := by
  by_cases he : cfg.enabled.getD false = false
  · left
    simp [extract_user_info, he]
  · have he' : cfg.enabled.getD false = true := by
      cases hx : cfg.enabled.getD false
      · exact absurd hx he
      · rfl
    cases authHeader with
    | none => left; simp [extract_user_info, he]
    | some h =>
      by_cases h1 : h.isEmpty = true
      · left; simp [extract_user_info, he, h1]
      · by_cases h2 : h.bearerPrefixed = true
        · cases hv : validate_jwt_token h.afterBearer cfg env now with
          | error e => left; simp [extract_user_info, he, h1, h2, hv]
          | ok p =>
            cases hc : create_authenticated_user_from_jwt p with
            | error e => left; simp [extract_user_info, he, h1, h2, hv, hc]
            | ok u =>
              right
              refine ⟨h, p, u, rfl, by simpa using h1, h2, he', hv, hc, ?_⟩
              simp [extract_user_info, he, h1, h2, hv, hc]
        · left; simp [extract_user_info, he, h1, h2]

/-! Claim C4. -/

/-- C4: signature verification uses only the configured algorithm
(default RS256), never the token header's: for every token whose header
algorithm differs from the configured one — including `none` — the
validation call fails with the `JWTValidationError` variant rather than
bypassing verification, whatever the key material resolves to. -/
theorem c4_algorithm_confusion_rejected (ts : TokenString) (cfg : JWTConfig) (env : Env)
    (now : Int) (t : JWTToken)
    (hp : (stripBearer ts).parse = some t)
    (ha : t.headerAlg ≠ cfg.algorithm.getD defaultAlg) :
    ∃ m, validate_jwt_token ts cfg env now = .error (.validation m) := by
  unfold validate_jwt_token tryValidate
  cases hk : get_signing_key cfg (some (stripBearer ts)) env with
  | error m =>
    exact ⟨validationFailedPre ++ m, by simp [hk, catchValidate]⟩
  | ok key =>
    exact ⟨invalidTokenPre ++ algNotAllowedMsg, by simp [hk, jwtDecode, hp, ha, catchValidate]⟩

/-- A token whose header declares algorithm `none`, carrying a valid-iat
future-exp payload, with no real signature. -/
def noneAlgToken : TokenString :=
  { body := some { headerAlg := algNone
                   signedAlg := algNone
                   signedKey := ""
                   payload := [(kSub, .str subU1), (kExp, .num 2000), (kIat, .num 500)] } }

/-- An enabled HMAC configuration with a present secret. -/
def hmacCfg : JWTConfig :=
  { enabled := some true, algorithm := some algHS256, secret_key := some secretStr }

/-- C4 witness: under the HS256 configuration, a token whose header says
`none` is rejected with a validation error. -/
theorem c4_witness :
    ∃ m, validate_jwt_token noneAlgToken hmacCfg envEmpty 1000 = .error (.validation m) :=
  c4_algorithm_confusion_rejected noneAlgToken hmacCfg envEmpty 1000
    { headerAlg := algNone
      signedAlg := algNone
      signedKey := ""
      payload := [(kSub, .str subU1), (kExp, .num 2000), (kIat, .num 500)] }
    rfl (by decide)

/-! Claim C5. -/

/-- Test for the `JWTExpiredError` outcome of a validation call. -/
def isExpiredResult : Except JWTErr Payload → Bool
  | .error (.expired _) => true
  | _ => false

/-- C5 (amended): for every token whose signature verifies under the
configured key and algorithm (and whose `iat`/`nbf`, when present, pass
their checks, which PyJWT runs before `exp`), an `exp` at or before the
current time makes `validate_jwt_token` fail with `JWTExpiredError`. -/
theorem c5_expired_when_signature_valid (ts : TokenString) (cfg : JWTConfig) (env : Env)
    (now : Int) (t : JWTToken) (key : String)
    (hp : (stripBearer ts).parse = some t)
    (hk : get_signing_key cfg (some (stripBearer ts)) env = .ok key)
    (halg : t.headerAlg = cfg.algorithm.getD defaultAlg)
    (hsa : t.signedAlg = t.headerAlg)
    (hsk : t.signedKey = key)
    (hiat : validateIat t.payload now = .ok ())
    (hnbf : validateNbf t.payload now = .ok ())
    (e : Int)
    (hexp : pyGet t.payload kExp = some (.num e))
    (hle : e ≤ now) :
    validate_jwt_token ts cfg env now = .error (.expired expiredMsg) := by
  unfold validate_jwt_token tryValidate
  simp [hk, jwtDecode, hp, halg, hsa, hsk, hiat, hnbf, validateExp, hexp, hle, catchValidate]

/-- A payload whose `exp` (5) lies in the past at time 100. -/
def expiredPayload : Payload := [(kSub, .str subU1), (kExp, .num 5), (kIat, .num 1)]

/-- An expired token signed with a key other than the configured
secret. -/
def badSigExpiredToken : TokenString :=
  { body := some { headerAlg := algHS256
                   signedAlg := algHS256
                   signedKey := wrongKeyStr
                   payload := expiredPayload } }

/-- C5 counterexample: an expired token whose signature is invalid for
the configured key fails with the `JWTValidationError` variant (signature
verification runs first), not with `JWTExpiredError` — so expiry
reporting is *not* independent of signature validity. -/
theorem c5_counterexample :
    validate_jwt_token badSigExpiredToken hmacCfg envEmpty 100 =
      .error (.validation (invalidTokenPre ++ sigFailedMsg)) ∧
    isExpiredResult (validate_jwt_token badSigExpiredToken hmacCfg envEmpty 100) = false ∧
    pyGet expiredPayload kExp = some (.num 5) ∧
    (5 : Int) ≤ 100 :=
  ⟨rfl, rfl, rfl, by decide⟩

/-- The same expired token signed with the configured secret. -/
def validSigExpiredToken : TokenString :=
  { body := some { headerAlg := algHS256
                   signedAlg := algHS256
                   signedKey := secretStr
                   payload := expiredPayload } }

/-- C5 witness: with a valid signature the expired token yields
`JWTExpiredError`. -/
theorem c5_witness :
    validate_jwt_token validSigExpiredToken hmacCfg envEmpty 100 =
      .error (.expired expiredMsg) :=
  c5_expired_when_signature_valid validSigExpiredToken hmacCfg envEmpty 100
    { headerAlg := algHS256
      signedAlg := algHS256
      signedKey := secretStr
      payload := expiredPayload }
    secretStr rfl rfl rfl rfl rfl rfl rfl 5 rfl (by decide)

/-! Claim C1. -/

/-- Test for the `JWTInvalidClaimsError` outcome of a validation call. -/
def isInvalidClaimsResult : Except JWTErr Payload → Bool
  | .error (.invalidClaims _) => true
  | _ => false

/-- An enabled HS256 configuration that additionally requires the
`email` claim. -/
def emailRequiredCfg : JWTConfig :=
  { hmacCfg with required_claims := some [kSub, kExp, kIat, kEmail] }

/-- A payload with valid `sub`, future `exp`, past `iat` — but no
`email`. -/
def noEmailPayload : Payload := [(kSub, .str subU1), (kExp, .num 2000), (kIat, .num 500)]

/-- A correctly signed token over `noEmailPayload`. -/
def noEmailToken : TokenString :=
  { body := some { headerAlg := algHS256
                   signedAlg := algHS256
                   signedKey := secretStr
                   payload := noEmailPayload } }

/-- The message that actually escapes `validate_jwt_token` for the
missing `email` claim: the raised `JWTInvalidClaimsError` is swallowed
by the blanket `except Exception` of the same function and re-raised as
a plain `JWTValidationError`. -/
def missingEmailMsg : String := validationFailedPre ++ missingClaimsPre ++ pyListRepr [kEmail]

/-- C1 (exhibiting the code bug): for a signature-, exp-, iat-valid token
that merely lacks the required `email` claim, `validate_jwt_token`
raises `JWTValidationError` (not `JWTInvalidClaimsError`, contradicting
its own docstring), because the `JWTInvalidClaimsError` raised inside
its `try` block is re-caught by that block's own `except Exception`
clause; the hard gate therefore answers HTTP 401
`authentication_failed` instead of the documented 422
`invalid_claims`. -/
theorem c1_missing_claims_wrapped_to_401 :
    validate_jwt_token noEmailToken emailRequiredCfg envEmpty 1000 =
      .error (.validation missingEmailMsg) ∧
    isInvalidClaimsResult (validate_jwt_token noEmailToken emailRequiredCfg envEmpty 1000) =
      false ∧
    get_current_user_dependency emailRequiredCfg envEmpty 1000 tIso (some noEmailToken) =
      .error (mapAuthErr (.validation missingEmailMsg) tIso) ∧
    (mapAuthErr (.validation missingEmailMsg) tIso).status = 401 ∧
    (mapAuthErr (.validation missingEmailMsg) tIso).detail.error = errAuthFailed :=
  ⟨rfl, rfl, rfl, rfl, rfl⟩

/-! Claim C2. -/

/-- C2 (amended): for every enabled configuration whose algorithm starts
with `RS`, `validate_jwt_config` accepts exactly when `public_key_path`
is truthy, names an existing file and the enforcement mode is known —
the `jwks_url` field plays no role — and a configuration without a
truthy `public_key_path` is rejected with the `public_key_path` error
even when `jwks_url` is set. -/
theorem c2_rsa_config_requires_key_file (cfg : JWTConfig) (env : Env)
    (he : cfg.enabled.getD false = true)
    (hrs : pyStartsWith (cfg.algorithm.getD defaultAlg) prefRS = true) :
    (validate_jwt_config cfg env = .ok true ↔
      (truthyOptS cfg.public_key_path = true ∧
       env.fileExists (cfg.public_key_path.getD "") = true ∧
       enforcementModeOk cfg = true)) ∧
    (truthyOptS cfg.public_key_path = false →
      validate_jwt_config cfg env = .error pkRequiredMsg) := by
  unfold validate_jwt_config
  by_cases h1 : truthyOptS cfg.public_key_path = true
  · by_cases h2 : env.fileExists (cfg.public_key_path.getD "") = true
    · by_cases h3 : enforcementModeOk cfg = true
      · simp [he, hrs, h1, h2, h3]
      · simp [he, hrs, h1, h2, h3]
    · simp [he, hrs, h1, h2]
  · simp [he, hrs, h1]

def jwksUrlStr : String := "https://example.com/jwks.json"

/-- An enabled RS256 configuration with a JWKS URL and no
`public_key_path`. -/
def jwksOnlyCfg : JWTConfig :=
  { enabled := some true, algorithm := some defaultAlg, jwks_url := some jwksUrlStr }

/-- C2 counterexample: the claim says a configuration with `jwks_url`
set and no `public_key_path` is accepted; `validate_jwt_config` rejects
it — whatever the filesystem contains — with the `public_key_path`
error. -/
theorem c2_counterexample_jwks_only_rejected :
    validate_jwt_config jwksOnlyCfg envEmpty = .error pkRequiredMsg ∧
    validate_jwt_config jwksOnlyCfg envAllFiles = .error pkRequiredMsg ∧
    truthyOptS jwksOnlyCfg.jwks_url = true ∧
    jwksOnlyCfg.public_key_path = none :=
  ⟨rfl, rfl, rfl, rfl⟩

def pkPathStr : String := "public.pem"

/-- An enabled RS256 configuration pointing at a public key file. -/
def pkFileCfg : JWTConfig :=
  { enabled := some true, algorithm := some defaultAlg, public_key_path := some pkPathStr }

/-- C2 witness: with the key file present the RS256 configuration is
accepted. -/
theorem c2_witness :
    validate_jwt_config pkFileCfg envAllFiles = .ok true :=
  (c2_rsa_config_requires_key_file pkFileCfg envAllFiles rfl (by decide)).1.mpr
    ⟨rfl, rfl, rfl⟩

/-! Claim C3. -/

/-- A true `keyIsListOrAbsent` means the claim is absent or holds a
list. -/
lemma keyIsListOrAbsent_shape (p : Payload) (k : String)
    (h : keyIsListOrAbsent p k = true) :
    pyGet p k = none ∨ ∃ l, pyGet p k = some (.list l) := by
  unfold keyIsListOrAbsent at h
  cases hg : pyGet p k with
  | none => exact Or.inl rfl
  | some v =>
    rw [hg] at h
    cases v with
    | list l => exact Or.inr ⟨l, rfl⟩
    | null => exact absurd h (by simp [JValue.isList])
    | bool b => exact absurd h (by simp [JValue.isList])
    | num n => exact absurd h (by simp [JValue.isList])
    | str s => exact absurd h (by simp [JValue.isList])
    | obj fs => exact absurd h (by simp [JValue.isList])

/-- C3 (amended): on every payload in which each of the `permissions`,
`perms` and `roles` claims is absent or holds a list value, the source's
`extract_user_permissions` returns exactly the first non-empty such list
(the specification's resolution rule); the rule as originally stated
fails only when a truthy non-list value occupies an earlier claim of the
chain, which short-circuits the source to the empty list. -/
theorem c3_first_nonempty_list_wins (p : Payload) (h : chainAllLists p = true) :
    extract_user_permissions p = specPermissions p := by
  unfold chainAllLists at h
  rw [Bool.and_eq_true, Bool.and_eq_true] at h
  obtain ⟨⟨h1, h2⟩, h3⟩ := h
  rcases keyIsListOrAbsent_shape p kPermissions h1 with hp1 | ⟨l1, hp1⟩
  · rcases keyIsListOrAbsent_shape p kPerms h2 with hp2 | ⟨l2, hp2⟩
    · rcases keyIsListOrAbsent_shape p kRoles h3 with hp3 | ⟨l3, hp3⟩
      · simp [extract_user_permissions, specPermissions, specListOf, hp1, hp2, hp3,
          JValue.truthy]
      · cases l3 with
        | nil =>
          simp [extract_user_permissions, specPermissions, specListOf, hp1, hp2, hp3,
            JValue.truthy]
        | cons x xs =>
          simp [extract_user_permissions, specPermissions, specListOf, hp1, hp2, hp3,
            JValue.truthy]
    · cases l2 with
      | nil =>
        rcases keyIsListOrAbsent_shape p kRoles h3 with hp3 | ⟨l3, hp3⟩
        · simp [extract_user_permissions, specPermissions, specListOf, hp1, hp2, hp3,
            JValue.truthy]
        · cases l3 with
          | nil =>
            simp [extract_user_permissions, specPermissions, specListOf, hp1, hp2, hp3,
              JValue.truthy]
          | cons x xs =>
            simp [extract_user_permissions, specPermissions, specListOf, hp1, hp2, hp3,
              JValue.truthy]
      | cons x xs =>
        simp [extract_user_permissions, specPermissions, specListOf, hp1, hp2,
          JValue.truthy]
  · cases l1 with
    | nil =>
      rcases keyIsListOrAbsent_shape p kPerms h2 with hp2 | ⟨l2, hp2⟩
      · rcases keyIsListOrAbsent_shape p kRoles h3 with hp3 | ⟨l3, hp3⟩
        · simp [extract_user_permissions, specPermissions, specListOf, hp1, hp2, hp3,
            JValue.truthy]
        · cases l3 with
          | nil =>
            simp [extract_user_permissions, specPermissions, specListOf, hp1, hp2, hp3,
              JValue.truthy]
          | cons x xs =>
            simp [extract_user_permissions, specPermissions, specListOf, hp1, hp2, hp3,
              JValue.truthy]
      · cases l2 with
        | nil =>
          rcases keyIsListOrAbsent_shape p kRoles h3 with hp3 | ⟨l3, hp3⟩
          · simp [extract_user_permissions, specPermissions, specListOf, hp1, hp2, hp3,
              JValue.truthy]
          · cases l3 with
            | nil =>
              simp [extract_user_permissions, specPermissions, specListOf, hp1, hp2, hp3,
                JValue.truthy]
            | cons x xs =>
              simp [extract_user_permissions, specPermissions, specListOf, hp1, hp2, hp3,
                JValue.truthy]
        | cons x xs =>
          simp [extract_user_permissions, specPermissions, specListOf, hp1, hp2,
            JValue.truthy]
    | cons x xs =>
      simp [extract_user_permissions, specPermissions, specListOf, hp1, JValue.truthy]

def permRead : String := "read"

/-- The payload of the claim's own example: `permissions` holds a truthy
non-list value and `perms` a non-empty list. -/
def mixedPermsPayload : Payload :=
  [(kPermissions, .str adminRole), (kPerms, .list [.str permRead])]

/-- C3 counterexample: on the claim's example payload the source returns
the empty list, not the `perms` list the claim promises — a truthy
non-list value earlier in the chain short-circuits extraction. -/
theorem c3_counterexample_truthy_nonlist :
    extract_user_permissions mixedPermsPayload = [] ∧
    specPermissions mixedPermsPayload = [.str permRead] ∧
    (JValue.str adminRole).truthy = true ∧
    (JValue.str adminRole).isList = false ∧
    extract_user_permissions mixedPermsPayload ≠ specPermissions mixedPermsPayload := by
  have hx : extract_user_permissions mixedPermsPayload = [] := rfl
  have hs : specPermissions mixedPermsPayload = [.str permRead] := rfl
  refine ⟨hx, hs, rfl, rfl, ?_⟩
  intro hEq
  rw [hx, hs] at hEq
  exact List.noConfusion hEq

/-- A payload whose chain values are all lists: `permissions` empty,
`perms` non-empty. -/
def listPermsPayload : Payload :=
  [(kPermissions, .list []), (kPerms, .list [.str permRead])]

/-- C3 witness: on an all-lists payload the source agrees with the
specification's first-non-empty-list rule. -/
theorem c3_witness :
    extract_user_permissions listPermsPayload = specPermissions listPermsPayload :=
  c3_first_nonempty_list_wins listPermsPayload rfl
